import Mathlib

/-!
Verification of the Cosmic Watch risk-scoring engine and notification layer.

The definitions below are a shallow embedding of the JavaScript source in
`src/frontend/src/hooks/useNotifications.js` and the risk-analysis section of
`celestialData.js` (`calculateRiskScore`, `getRiskTrend`, and the alert
filter/sort pipeline of `useNotifications`).

Modelling conventions:
* JS numbers are embedded as rationals (`ℚ`); every comparison and every
  arithmetic step performed by the scoring code is exact on the values it is
  applied to, so the embedding tracks the source branch for branch.
* An absent field (JS `undefined`) is `Option.none`.  Arithmetic on
  `undefined` yields JS `NaN`; any `<`/`>` comparison against `NaN` is false.
  This is embedded by carrying `Option ℚ` through the size computation and
  letting the comparison helper `jsGt` return `false` on `none`.
* Dates are embedded as integer timestamps in milliseconds since the epoch
  (the value of `Date.prototype.getTime`); `new Date(s)` string parsing is
  abstracted into the `Option ℤ` stored on the body.
* `Math.round` rounds half toward +∞ (`jsRound`), `Math.ceil` is `⌈·⌉`,
  and `Number.prototype.toFixed` is embedded by `jsToFixedNum`, which on
  `NaN` produces the string "NaN" exactly as JS does.
* The purely illustrative `details.impactEnergy` string of
  `calculateRiskScore` (a formatted kinetic-energy estimate using `Math.PI`)
  is not part of the embedded record: no factor, score, level or explanation
  depends on it, and it affects no property below.
-/

namespace CosmicWatch

/-- A celestial body as consumed by the risk engine and the notification
layer (`celestialData.js`).  `radius` and `closeApproachDate` are optional:
an absent JS field is `none`. -/
structure CelestialBody where
  id : String
  name : String
  distanceFromEarth : ℚ
  velocity : ℚ
  radius : Option ℚ
  color : String
  closeApproachDate : Option ℤ
  deriving Repr, DecidableEq

/-- One entry of the `factors` list pushed by `calculateRiskScore`. -/
structure RiskFactor where
  name : String
  score : ℕ
  max : ℕ
  percentage : ℚ
  explanation : String
  deriving Repr, DecidableEq

/-- The assessment object returned by `calculateRiskScore` (without the
purely illustrative `details` block, see the file header). -/
structure RiskAssessment where
  score : ℕ
  level : String
  color : String
  explanation : String
  factors : List RiskFactor
  deriving Repr, DecidableEq

/-- JS `x > c` where `x` may be `NaN` (arising from `undefined * 2`):
every comparison against `NaN` is false. -/
def jsGt (x : Option ℚ) (c : ℚ) : Bool :=
  match x with
  | none => false
  | some q => decide (c < q)

/-- JS `Math.round`: round half toward +∞. -/
def jsRound (q : ℚ) : ℤ :=
  ⌊q + 1 / 2⌋

/-- Left-pad a digit string with zeros to the requested length. -/
def padLeftZeros (s : String) (len : ℕ) : String :=
  if s.length ≥ len then s else String.mk (List.replicate (len - s.length) '0') ++ s

/-- JS `Number.prototype.toFixed f` on a non-NaN value: the sign is taken
first, then the magnitude is scaled by `10 ^ f` and rounded to the nearest
integer, ties toward the larger value (ECMA-262 Number.prototype.toFixed). -/
def jsToFixedNum (q : ℚ) (f : ℕ) : String :=
  let sign := if q < 0 then "-" else ""
  let n : ℕ := (⌊|q| * (10 : ℚ) ^ f + 1 / 2⌋).toNat
  if f = 0 then
    sign ++ toString n
  else
    sign ++ toString (n / 10 ^ f) ++ "." ++ padLeftZeros (toString (n % 10 ^ f)) f

/-- JS `toFixed` lifted to a possibly-NaN value: `NaN.toFixed(f)` is the
string "NaN". -/
def jsToFixed (x : Option ℚ) (f : ℕ) : String :=
  match x with
  | none => "NaN"
  | some q => jsToFixedNum q f

/-! ### Factor 1: distance risk (0-40 points) -/

/-- The `distanceScore` variable of `calculateRiskScore`. -/
def distanceScore (d : ℚ) : ℕ :=
  if d < 0.5 then 40
  else if d < 5 then 30
  else if d < 50 then 20
  else 10

/-- The `distanceExplanation` variable of `calculateRiskScore`. -/
def distanceExplanation (d : ℚ) : String :=
  if d < 0.5 then
    "CRITICAL proximity at " ++ jsToFixedNum d 2 ++ " M km - Extremely close approach requiring immediate attention"
  else if d < 5 then
    "HIGH proximity at " ++ jsToFixedNum d 2 ++ " M km - Close monitoring zone, potential near-miss"
  else if d < 50 then
    "MEDIUM proximity at " ++ jsToFixedNum d 2 ++ " M km - Standard tracking distance"
  else
    "LOW proximity at " ++ jsToFixedNum d 2 ++ " M km - Distant object, minimal immediate concern"

/-- The factor record pushed for distance. -/
def distanceFactor (d : ℚ) : RiskFactor :=
  { name := "Distance"
    score := distanceScore d
    max := 40
    percentage := ((distanceScore d : ℚ) / 40) * 100
    explanation := distanceExplanation d }

/-! ### Factor 2: velocity risk (0-35 points) -/

/-- The `velocityScore` variable of `calculateRiskScore`. -/
def velocityScore (v : ℚ) : ℕ :=
  if v > 35 then 35
  else if v > 30 then 25
  else if v > 25 then 15
  else 5

/-- The `velocityExplanation` variable of `calculateRiskScore`. -/
def velocityExplanation (v : ℚ) : String :=
  if v > 35 then
    "CRITICAL velocity at " ++ jsToFixedNum v 1 ++ " km/s - Extremely fast approach increases impact energy exponentially (KE = ½mv²)"
  else if v > 30 then
    "HIGH velocity at " ++ jsToFixedNum v 1 ++ " km/s - Fast approach significantly increases kinetic energy and damage potential"
  else if v > 25 then
    "MEDIUM velocity at " ++ jsToFixedNum v 1 ++ " km/s - Moderate speed within typical asteroid range"
  else
    "LOW velocity at " ++ jsToFixedNum v 1 ++ " km/s - Relatively slow approach reduces impact energy"

/-- The factor record pushed for velocity. -/
def velocityFactor (v : ℚ) : RiskFactor :=
  { name := "Velocity"
    score := velocityScore v
    max := 35
    percentage := ((velocityScore v : ℚ) / 35) * 100
    explanation := velocityExplanation v }

/-! ### Factor 3: size risk (0-25 points)

`estimatedDiameter = body.radius * 2`; when `radius` is absent this is
`undefined * 2 = NaN` and every piecewise comparison is false, so control
falls to the final `else` (the 5-point TINY bucket), and the `toFixed`
interpolation in the explanation renders "NaN". -/

/-- The `sizeScore` variable of `calculateRiskScore`, as a function of the
optional `radius` field. -/
def sizeScore (radius : Option ℚ) : ℕ :=
  let estimatedDiameter := radius.map (· * 2)
  if jsGt estimatedDiameter 0.25 then 25
  else if jsGt estimatedDiameter 0.15 then 18
  else if jsGt estimatedDiameter 0.08 then 10
  else 5

/-- The `sizeExplanation` variable of `calculateRiskScore`. -/
def sizeExplanation (radius : Option ℚ) : String :=
  let estimatedDiameter := radius.map (· * 2)
  let diameterMeters := estimatedDiameter.map (· * 1000)
  if jsGt estimatedDiameter 0.25 then
    "LARGE object (~" ++ jsToFixed diameterMeters 0 ++ "m diameter) - City-scale destruction potential, mass extinction risk"
  else if jsGt estimatedDiameter 0.15 then
    "MEDIUM object (~" ++ jsToFixed diameterMeters 0 ++ "m diameter) - Regional impact potential, Tunguska-scale event"
  else if jsGt estimatedDiameter 0.08 then
    "SMALL object (~" ++ jsToFixed diameterMeters 0 ++ "m diameter) - Local impact, most would burn up in atmosphere"
  else
    "TINY object (~" ++ jsToFixed diameterMeters 0 ++ "m diameter) - Minimal threat, likely to disintegrate on entry"

/-- The factor record pushed for size. -/
def sizeFactor (radius : Option ℚ) : RiskFactor :=
  { name := "Size"
    score := sizeScore radius
    max := 25
    percentage := ((sizeScore radius : ℚ) / 25) * 100
    explanation := sizeExplanation radius }

/-! ### Level, color and overall explanation -/

/-- The `level` variable: thresholds 66 and 31, inclusive lower bounds. -/
def riskLevel (score : ℕ) : String :=
  if score ≥ 66 then "HIGH"
  else if score ≥ 31 then "MEDIUM"
  else "LOW"

/-- The `color` variable, tied 1:1 to the level branch. -/
def riskColor (score : ℕ) : String :=
  if score ≥ 66 then "#ff006e"
  else if score ≥ 31 then "#ffbe0b"
  else "#00f0ff"

/-- The `overallExplanation` variable, tied 1:1 to the level branch. -/
def riskOverallExplanation (score : ℕ) : String :=
  if score ≥ 66 then
    "⚠️ HIGH RISK: This object requires immediate monitoring and potential deflection planning. Combination of close proximity, high velocity, and/or significant size creates substantial threat."
  else if score ≥ 31 then
    "⚡ MEDIUM RISK: This object warrants continued observation and tracking. While not immediately threatening, certain factors elevate it above routine monitoring."
  else
    "✓ LOW RISK: This object poses minimal threat based on current trajectory and characteristics. Standard monitoring protocols apply."

/-- Shallow embedding of `calculateRiskScore`.  A `none` argument is the JS
null/undefined body.  The returned `score` is `Math.round` of the running
sum; the sum of three natural-number bucket values is already an integer, so
the rounding is the identity and the sum is stored directly. -/
def calculateRiskScore : Option CelestialBody → RiskAssessment
  | none =>
    { score := 0
      level := "LOW"
      color := "#00f0ff"
      explanation := "No object selected"
      factors := [] }
  | some body =>
    let score := distanceScore body.distanceFromEarth
      + velocityScore body.velocity + sizeScore body.radius
    { score := score
      level := riskLevel score
      color := riskColor score
      explanation := riskOverallExplanation score
      factors := [distanceFactor body.distanceFromEarth,
                  velocityFactor body.velocity,
                  sizeFactor body.radius] }

/-! ### Risk trend helper (`getRiskTrend`) -/

/-- The trend record returned by `getRiskTrend`. -/
structure RiskTrend where
  current : ℕ
  average : ℤ
  difference : ℤ
  trend : String
  message : String
  deriving Repr, DecidableEq

/-- The `avgScore` expression of `getRiskTrend`: sum of the scores of all
supplied bodies divided by the collection length.  (In JS an empty
collection divides by zero and yields `NaN`; the claims below are stated
for non-empty collections, where the division is exact.) -/
def meanRiskScore (allBodies : List CelestialBody) : ℚ :=
  (allBodies.map fun b => ((calculateRiskScore (some b)).score : ℚ)).sum / allBodies.length

/-- Shallow embedding of `getRiskTrend`.  `difference` is kept exact (a
rational) for the branch tests, exactly as in the source, and only rounded
in the returned record. -/
def getRiskTrend (body : CelestialBody) (allBodies : List CelestialBody) : RiskTrend :=
  let currentRisk := calculateRiskScore (some body)
  let avgScore := meanRiskScore allBodies
  let difference : ℚ := (currentRisk.score : ℚ) - avgScore
  { current := currentRisk.score
    average := jsRound avgScore
    difference := jsRound difference
    trend :=
      if difference > 15 then "ABOVE_AVERAGE"
      else if difference < -15 then "BELOW_AVERAGE"
      else "AVERAGE"
    message :=
      if difference > 15 then
        toString (jsRound difference).natAbs ++ " points above fleet average - Priority monitoring"
      else if difference < -15 then
        toString (jsRound difference).natAbs ++ " points below fleet average - Routine tracking"
      else
        "Within average risk range for tracked objects" }

/-! ### Notification layer (`useNotifications`)

The `alerts` memo filters the catalog, maps each surviving body to an alert
record and sorts by risk level (descending) then days-until-approach
(ascending).  `now` is the timestamp taken at the top of the memo;
`dismissedIds` is the persisted dismissal list; `lastViewedTime` drives the
`isNew` flag. -/

/-- `ALERT_DAYS_THRESHOLD * 24 * 60 * 60 * 1000`: thirty days in
milliseconds. -/
def thirtyDaysMs : ℤ := 30 * 24 * 60 * 60 * 1000

/-- The filter predicate of the `alerts` memo: the body must carry a close
approach date that is strictly in the future and at most thirty days away,
be closer than `ALERT_DISTANCE_THRESHOLD = 10` million km, and not be
dismissed. -/
def alertEligible (now : ℤ) (dismissedIds : List String) (body : CelestialBody) : Bool :=
  match body.closeApproachDate with
  | none => false
  | some approachDate =>
    let thirtyDaysFromNow := now + thirtyDaysMs
    let isFutureDate := decide (now < approachDate)
    let isWithinThirtyDays := decide (approachDate ≤ thirtyDaysFromNow)
    let isCloseProximity := decide (body.distanceFromEarth < 10)
    let isNotDismissed := !(dismissedIds.contains body.id)
    isFutureDate && isWithinThirtyDays && isCloseProximity && isNotDismissed

/-- The alert record built in the `.map` step of the `alerts` memo.  The
`createdAt` ISO-string timestamp is represented by `now` itself; nothing
below depends on its formatting. -/
structure Alert where
  id : String
  objectId : String
  objectName : String
  closeApproachDate : ℤ
  daysUntilApproach : ℤ
  distanceFromEarth : ℚ
  velocity : ℚ
  riskLevel : String
  riskScore : ℕ
  riskColor : String
  color : String
  isNew : Bool
  createdAt : ℤ
  deriving Repr, DecidableEq

/-- The `.map` step of the `alerts` memo.  It only ever runs on bodies that
passed `alertEligible`, which requires a present close approach date; the
`getD 0` default is therefore never exercised in the pipeline. -/
def toAlert (now : ℤ) (lastViewedTime : Option ℤ) (body : CelestialBody) : Alert :=
  let approachDate := body.closeApproachDate.getD 0
  let riskData := calculateRiskScore (some body)
  let daysUntilApproach := ⌈(((approachDate - now : ℤ) : ℚ) / (1000 * 60 * 60 * 24))⌉
  let isNew :=
    match lastViewedTime with
    | none => true
    | some t => decide (t < approachDate)
  { id := "alert-" ++ body.id
    objectId := body.id
    objectName := body.name
    closeApproachDate := approachDate
    daysUntilApproach := daysUntilApproach
    distanceFromEarth := body.distanceFromEarth
    velocity := body.velocity
    riskLevel := riskData.level
    riskScore := riskData.score
    riskColor := riskData.color
    color := body.color
    isNew := isNew
    createdAt := now }

/-- The `riskOrder` lookup table of the sort comparator: `{HIGH: 3,
MEDIUM: 2, LOW: 1}`.  Any other key reads `undefined` in JS; the scorer
only ever produces the three listed levels. -/
def riskOrder (level : String) : ℕ :=
  if level = "HIGH" then 3
  else if level = "MEDIUM" then 2
  else if level = "LOW" then 1
  else 0

/-- "`a` may be placed before `b`" for the `alerts` comparator
`(a, b) => riskOrder[b] - riskOrder[a] ≠ 0 ? riskOrder[b] - riskOrder[a]
: a.daysUntilApproach - b.daysUntilApproach`: higher risk order strictly
first, then fewer days until approach. -/
def alertLE (a b : Alert) : Bool :=
  if riskOrder a.riskLevel = riskOrder b.riskLevel then
    decide (a.daysUntilApproach ≤ b.daysUntilApproach)
  else
    decide (riskOrder b.riskLevel < riskOrder a.riskLevel)

/-- The full `alerts` memo: filter, map, sort. -/
def alerts (now : ℤ) (dismissedIds : List String) (lastViewedTime : Option ℤ)
    (celestialBodies : List CelestialBody) : List Alert :=
  (((celestialBodies.filter (alertEligible now dismissedIds)).map
      (toAlert now lastViewedTime)).mergeSort alertLE)

/-! ### Auxiliary vocabulary for the stated properties -/

/-- `charsStartWith pat l`: the character list `l` starts with `pat`. -/
def charsStartWith : List Char → List Char → Bool
  | [], _ => true
  | _ :: _, [] => false
  | a :: as, b :: bs => a == b && charsStartWith as bs

/-- `charsHaveInfix pat l`: `pat` occurs contiguously somewhere in `l`. -/
def charsHaveInfix (pat : List Char) : List Char → Bool
  | [] => pat.isEmpty
  | c :: rest => charsStartWith pat (c :: rest) || charsHaveInfix pat rest

/-- `containsText s pat`: the string `pat` occurs as a substring of `s`. -/
def containsText (s pat : String) : Bool :=
  charsHaveInfix pat.data s.data

/-- Stated from the spec sentence for the notification layer: a body is
alert-eligible exactly when it has a close approach date that lies within
the next 30 days (in the future, at most 30 days away) and its
`distanceFromEarth` is below 10 million km, provided it has not been
dismissed.  This definition follows the specification's words; the
code-derived predicate is `alertEligible`. -/
def alertEligibleSpec (now : ℤ) (dismissedIds : List String) (body : CelestialBody) : Prop :=
  ∃ approachDate, body.closeApproachDate = some approachDate
    ∧ now < approachDate
    ∧ approachDate ≤ now + 30 * 24 * 60 * 60 * 1000
    ∧ body.distanceFromEarth < 10
    ∧ body.id ∉ dismissedIds

/-! ### Sample bodies from the static catalog (`celestialData.js`),
used as concrete instances.  Close approach dates are the timestamps of
the catalog's date strings (milliseconds since the epoch, UTC). -/

/-- Apophis (99942), the catalog's second entry. -/
def apophis : CelestialBody :=
  { id := "asteroid-apophis"
    name := "Apophis (99942)"
    distanceFromEarth := 0.31
    velocity := 30.7
    radius := some 0.08
    color := "#A89F91"
    closeApproachDate := some 1772323200000 }

/-- Vesta (4), the catalog's sixth entry. -/
def vesta : CelestialBody :=
  { id := "asteroid-vesta"
    name := "Vesta (4)"
    distanceFromEarth := 203.8
    velocity := 19.34
    radius := some 0.28
    color := "#C4BDB2"
    closeApproachDate := some 1778803200000 }

/-- Bennu (101955), the catalog's first entry, with the `radius` field
removed: a body shape on which the size computation sees `undefined`. -/
def bennuNoRadius : CelestialBody :=
  { id := "asteroid-bennu"
    name := "Bennu (101955)"
    distanceFromEarth := 18.6
    velocity := 27.7
    radius := none
    color := "#8B8680"
    closeApproachDate := some 1771113600000 }

/-- Vesta with the close-approach distance of Apophis; all other fields
unchanged.  Used to instantiate the monotonicity property. -/
def vestaClose : CelestialBody := { vesta with distanceFromEarth := 0.31 }

/-- Vesta at 31 km/s; all other fields unchanged. -/
def vestaFast : CelestialBody := { vesta with velocity := 31 }

/-- Vesta with a 0.05 km radius; all other fields unchanged. -/
def vestaSmall : CelestialBody := { vesta with radius := some 0.05 }

/-! ## Basic bucket bounds -/

theorem distanceScore_le (d : ℚ) : distanceScore d ≤ 40 := by
  unfold distanceScore; split_ifs <;> omega

theorem distanceScore_ge (d : ℚ) : 10 ≤ distanceScore d := by
  unfold distanceScore; split_ifs <;> omega

theorem velocityScore_le (v : ℚ) : velocityScore v ≤ 35 := by
  unfold velocityScore; split_ifs <;> omega

theorem velocityScore_ge (v : ℚ) : 5 ≤ velocityScore v := by
  unfold velocityScore; split_ifs <;> omega

theorem sizeScore_le (r : Option ℚ) : sizeScore r ≤ 25 := by
  simp only [sizeScore]; split_ifs <;> omega

theorem sizeScore_ge (r : Option ℚ) : 5 ≤ sizeScore r := by
  simp only [sizeScore]; split_ifs <;> omega

theorem calculateRiskScore_some_score (body : CelestialBody) :
    (calculateRiskScore (some body)).score
      = distanceScore body.distanceFromEarth + velocityScore body.velocity
          + sizeScore body.radius := rfl

theorem calculateRiskScore_some_level (body : CelestialBody) :
    (calculateRiskScore (some body)).level
      = riskLevel ((calculateRiskScore (some body)).score) := rfl

theorem calculateRiskScore_some_factors (body : CelestialBody) :
    (calculateRiskScore (some body)).factors
      = [distanceFactor body.distanceFromEarth, velocityFactor body.velocity,
         sizeFactor body.radius] := rfl

theorem riskLevel_iff (n : ℕ) :
    (riskLevel n = "HIGH" ↔ 66 ≤ n)
    ∧ (riskLevel n = "MEDIUM" ↔ 31 ≤ n ∧ n < 66)
    ∧ (riskLevel n = "LOW" ↔ n < 31) := by
  unfold riskLevel
  refine ⟨?_, ?_, ?_⟩ <;> split_ifs with h1 h2 <;> simp_all <;> omega

/-! ## Claim theorems -/

/-- C1: for every input body (including null), the `score` of the
assessment returned by `calculateRiskScore` equals the sum of the `score`
fields of its `factors` list, and that score lies in the closed interval
[0, 100]. -/
theorem calculateRiskScore_score_decomposition (b : Option CelestialBody) :
    (calculateRiskScore b).score
        = ((calculateRiskScore b).factors.map RiskFactor.score).sum
    ∧ 0 ≤ (calculateRiskScore b).score ∧ (calculateRiskScore b).score ≤ 100 := by
  cases b with
  | none => exact ⟨rfl, Nat.zero_le _, by decide⟩
  | some body =>
    refine ⟨?_, Nat.zero_le _, ?_⟩
    · simp only [calculateRiskScore, distanceFactor, velocityFactor, sizeFactor,
        List.map_cons, List.map_nil, List.sum_cons, List.sum_nil]
      omega
    · have h1 := distanceScore_le body.distanceFromEarth
      have h2 := velocityScore_le body.velocity
      have h3 := sizeScore_le body.radius
      have hs := calculateRiskScore_some_score body
      omega

/-- C2: for every non-null body, the level is HIGH exactly when the score
is at least 66, MEDIUM exactly when it is in [31, 66), and LOW exactly when
it is below 31; in particular the level function sends a score of exactly
66 to HIGH and of exactly 31 to MEDIUM. -/
theorem calculateRiskScore_level_thresholds (body : CelestialBody) :
    ((calculateRiskScore (some body)).level = "HIGH"
        ↔ 66 ≤ (calculateRiskScore (some body)).score)
    ∧ ((calculateRiskScore (some body)).level = "MEDIUM"
        ↔ 31 ≤ (calculateRiskScore (some body)).score
          ∧ (calculateRiskScore (some body)).score < 66)
    ∧ ((calculateRiskScore (some body)).level = "LOW"
        ↔ (calculateRiskScore (some body)).score < 31)
    ∧ riskLevel 66 = "HIGH" ∧ riskLevel 31 = "MEDIUM" := by
  have h := riskLevel_iff ((calculateRiskScore (some body)).score)
  rw [calculateRiskScore_some_level body]
  exact ⟨h.1, h.2.1, h.2.2, rfl, rfl⟩

/-- C3: for every body with non-negative distance, velocity and (present)
radius, `calculateRiskScore` returns a score in the closed interval
[15, 100]; the function is total by construction (every branch has an else
fallback and the embedding is a total function), and the exact floor is
20 = 10 + 5 + 5, the sum of the lowest buckets, which the middle conjunct
records. -/
theorem calculateRiskScore_total_range (body : CelestialBody) (r : ℚ)
    (_hrad : body.radius = some r) (_hd : 0 ≤ body.distanceFromEarth)
    (_hv : 0 ≤ body.velocity) (_hr : 0 ≤ r) :
    15 ≤ (calculateRiskScore (some body)).score
    ∧ 20 ≤ (calculateRiskScore (some body)).score
    ∧ (calculateRiskScore (some body)).score ≤ 100 := by
  have h1 := distanceScore_ge body.distanceFromEarth
  have h2 := distanceScore_le body.distanceFromEarth
  have h3 := velocityScore_ge body.velocity
  have h4 := velocityScore_le body.velocity
  have h5 := sizeScore_ge body.radius
  have h6 := sizeScore_le body.radius
  have hs := calculateRiskScore_some_score body
  omega

/-- Witness for C3 at the catalog's Vesta entry. -/
theorem calculateRiskScore_total_range_witness :
    15 ≤ (calculateRiskScore (some vesta)).score
    ∧ 20 ≤ (calculateRiskScore (some vesta)).score
    ∧ (calculateRiskScore (some vesta)).score ≤ 100 :=
  calculateRiskScore_total_range vesta 0.28 rfl
    (by with_unfolding_all decide) (by with_unfolding_all decide)
    (by with_unfolding_all decide)

/-! ## Monotonicity -/

theorem distanceScore_anti {d d' : ℚ} (h : d ≤ d') :
    distanceScore d' ≤ distanceScore d := by
  unfold distanceScore
  split_ifs <;> first | omega | linarith

theorem velocityScore_mono {v v' : ℚ} (h : v ≤ v') :
    velocityScore v ≤ velocityScore v' := by
  unfold velocityScore
  split_ifs <;> first | omega | linarith

theorem sizeScore_mono {r r' : ℚ} (h : r ≤ r') :
    sizeScore (some r) ≤ sizeScore (some r') := by
  simp only [sizeScore, Option.map_some', jsGt, decide_eq_true_eq]
  split_ifs <;> first | omega | linarith

/-- C4: holding velocity and radius fixed, a smaller distance never gets a
smaller distance sub-score or total score; holding the other metrics fixed,
a larger velocity never gets a smaller velocity sub-score or total score,
and a larger radius never gets a smaller size sub-score or total score. -/
theorem calculateRiskScore_monotone :
    (∀ b1 b2 : CelestialBody, b1.velocity = b2.velocity → b1.radius = b2.radius →
      b1.distanceFromEarth ≤ b2.distanceFromEarth →
        distanceScore b2.distanceFromEarth ≤ distanceScore b1.distanceFromEarth
        ∧ (calculateRiskScore (some b2)).score ≤ (calculateRiskScore (some b1)).score)
    ∧ (∀ b1 b2 : CelestialBody, b1.distanceFromEarth = b2.distanceFromEarth →
        b1.radius = b2.radius → b1.velocity ≤ b2.velocity →
          velocityScore b1.velocity ≤ velocityScore b2.velocity
          ∧ (calculateRiskScore (some b1)).score ≤ (calculateRiskScore (some b2)).score)
    ∧ (∀ (b1 b2 : CelestialBody) (r1 r2 : ℚ), b1.distanceFromEarth = b2.distanceFromEarth →
        b1.velocity = b2.velocity → b1.radius = some r1 → b2.radius = some r2 → r1 ≤ r2 →
          sizeScore b1.radius ≤ sizeScore b2.radius
          ∧ (calculateRiskScore (some b1)).score ≤ (calculateRiskScore (some b2)).score) := by
  refine ⟨fun b1 b2 hv hr hd => ?_, fun b1 b2 hd hr hv => ?_,
    fun b1 b2 r1 r2 hd hv hr1 hr2 hr => ?_⟩
  · have hm := distanceScore_anti hd
    have hs1 := calculateRiskScore_some_score b1
    have hs2 := calculateRiskScore_some_score b2
    rw [hv, hr] at hs1
    exact ⟨hm, by omega⟩
  · have hm := velocityScore_mono hv
    have hs1 := calculateRiskScore_some_score b1
    have hs2 := calculateRiskScore_some_score b2
    rw [hd, hr] at hs1
    exact ⟨hm, by omega⟩
  · have hm := sizeScore_mono hr
    rw [← hr1, ← hr2] at hm
    have hs1 := calculateRiskScore_some_score b1
    have hs2 := calculateRiskScore_some_score b2
    rw [hd, hv] at hs1
    exact ⟨hm, by omega⟩

/-- Witness for C4: the three monotonicity parts instantiated with Vesta
against its closer, faster and smaller variants. -/
theorem calculateRiskScore_monotone_witness :
    (distanceScore vesta.distanceFromEarth ≤ distanceScore vestaClose.distanceFromEarth
      ∧ (calculateRiskScore (some vesta)).score ≤ (calculateRiskScore (some vestaClose)).score)
    ∧ (velocityScore vesta.velocity ≤ velocityScore vestaFast.velocity
      ∧ (calculateRiskScore (some vesta)).score ≤ (calculateRiskScore (some vestaFast)).score)
    ∧ (sizeScore vestaSmall.radius ≤ sizeScore vesta.radius
      ∧ (calculateRiskScore (some vestaSmall)).score ≤ (calculateRiskScore (some vesta)).score) :=
  ⟨calculateRiskScore_monotone.1 vestaClose vesta rfl rfl (by with_unfolding_all decide),
   calculateRiskScore_monotone.2.1 vesta vestaFast rfl rfl (by with_unfolding_all decide),
   calculateRiskScore_monotone.2.2 vestaSmall vesta 0.05 0.28 rfl rfl rfl rfl
     (by with_unfolding_all decide)⟩

/-! ## Missing radius (C5) -/

/-- C5 counterexample: on the catalog's Bennu entry with its `radius` field
removed, no factor explanation of `calculateRiskScore` contains the text
"unknown"; the size-factor explanation interpolates "NaN" for the diameter
instead.  (The "unknown" substitution claimed by the spec lives in a
separate plain-language explainer, not in `calculateRiskScore`.) -/
theorem calculateRiskScore_missing_radius_no_unknown :
    ((calculateRiskScore (some bennuNoRadius)).factors.map
        fun f => containsText f.explanation "unknown") = [false, false, false]
    ∧ (calculateRiskScore (some bennuNoRadius)).factors.map RiskFactor.explanation
        = ["MEDIUM proximity at 18.60 M km - Standard tracking distance",
           "MEDIUM velocity at 27.7 km/s - Moderate speed within typical asteroid range",
           "TINY object (~NaNm diameter) - Minimal threat, likely to disintegrate on entry"] := by
  with_unfolding_all decide

/-- C5 (amended): for every body whose `radius` field is absent,
`calculateRiskScore` still returns a well-formed assessment; the NaN
diameter (`undefined * 2`) makes every piecewise comparison false and
routes the size factor to the lowest (5-point, TINY) bucket, and the
size-factor explanation interpolates "NaN" (not "unknown") for the
diameter. -/
theorem calculateRiskScore_missing_radius (body : CelestialBody)
    (h : body.radius = none) :
    sizeScore body.radius = 5
    ∧ sizeExplanation body.radius
        = "TINY object (~NaNm diameter) - Minimal threat, likely to disintegrate on entry"
    ∧ (calculateRiskScore (some body)).score
        = distanceScore body.distanceFromEarth + velocityScore body.velocity + 5
    ∧ (calculateRiskScore (some body)).factors
        = [distanceFactor body.distanceFromEarth, velocityFactor body.velocity,
           sizeFactor none] := by
  rw [calculateRiskScore_some_score, calculateRiskScore_some_factors, h]
  exact ⟨rfl, rfl, rfl, rfl⟩

/-- Witness for the amended C5 at the radius-free Bennu entry. -/
theorem calculateRiskScore_missing_radius_witness :
    sizeScore bennuNoRadius.radius = 5
    ∧ sizeExplanation bennuNoRadius.radius
        = "TINY object (~NaNm diameter) - Minimal threat, likely to disintegrate on entry"
    ∧ (calculateRiskScore (some bennuNoRadius)).score
        = distanceScore bennuNoRadius.distanceFromEarth
            + velocityScore bennuNoRadius.velocity + 5
    ∧ (calculateRiskScore (some bennuNoRadius)).factors
        = [distanceFactor bennuNoRadius.distanceFromEarth,
           velocityFactor bennuNoRadius.velocity, sizeFactor none] :=
  calculateRiskScore_missing_radius bennuNoRadius rfl

/-- C6: `calculateRiskScore` on null (or undefined) returns exactly the
canned assessment with score 0, level LOW and explanation "No object
selected". -/
theorem calculateRiskScore_null :
    calculateRiskScore none
      = { score := 0, level := "LOW", color := "#00f0ff",
          explanation := "No object selected", factors := [] } := rfl

/-- C7: the Apophis-like input (distance 0.31, velocity 30.7, radius 0.08)
gets distance sub-score 40, velocity sub-score 25, size sub-score 18
(diameter 0.16 > 0.15), total score 83, level HIGH. -/
theorem calculateRiskScore_apophis :
    distanceScore (0.31 : ℚ) = 40 ∧ velocityScore (30.7 : ℚ) = 25
    ∧ sizeScore (some (0.08 : ℚ)) = 18
    ∧ (calculateRiskScore (some apophis)).score = 83
    ∧ (calculateRiskScore (some apophis)).level = "HIGH" := by
  with_unfolding_all decide

/-! ## Notification layer -/

/-- C8: a body of the catalog is selected by the alert filter exactly when
it has a close approach date lying within the next 30 days (strictly in the
future, at most 30 days away), its distance is below 10 million km, and it
has not been dismissed. -/
theorem alerts_filter_iff (now : ℤ) (dismissedIds : List String)
    (catalog : List CelestialBody) (body : CelestialBody) :
    body ∈ catalog.filter (alertEligible now dismissedIds)
      ↔ body ∈ catalog ∧ alertEligibleSpec now dismissedIds body := by
  rw [List.mem_filter]
  refine and_congr_right fun _ => ?_
  unfold alertEligible alertEligibleSpec
  cases hc : body.closeApproachDate with
  | none => simp
  | some approachDate =>
    simp [thirtyDaysMs, List.elem_iff, and_assoc]

theorem alertLE_total (a b : Alert) : alertLE a b || alertLE b a := by
  unfold alertLE
  split_ifs <;> simp_all <;> omega

theorem alertLE_trans (a b c : Alert) :
    alertLE a b → alertLE b c → alertLE a c := by
  unfold alertLE
  split_ifs <;> simp_all <;> omega

/-- C10: the alerts list is sorted so that alerts of strictly higher risk
order (HIGH = 3, MEDIUM = 2, LOW = 1) come first, and among alerts of equal
risk level those with fewer days until close approach come first. -/
theorem alerts_sorted (now : ℤ) (dismissedIds : List String)
    (lastViewedTime : Option ℤ) (catalog : List CelestialBody) :
    (alerts now dismissedIds lastViewedTime catalog).Pairwise fun a b =>
      riskOrder b.riskLevel ≤ riskOrder a.riskLevel
      ∧ (a.riskLevel = b.riskLevel → a.daysUntilApproach ≤ b.daysUntilApproach) := by
  have hs := List.sorted_mergeSort alertLE_trans alertLE_total
      ((catalog.filter (alertEligible now dismissedIds)).map
        (toAlert now lastViewedTime))
  refine hs.imp ?_
  intro a b hab
  unfold alertLE at hab
  split_ifs at hab with h1
  · exact ⟨by omega, fun _ => by simpa using hab⟩
  · have hlt : riskOrder b.riskLevel < riskOrder a.riskLevel := by simpa using hab
    exact ⟨Nat.le_of_lt hlt, fun hl => by rw [hl] at h1; omega⟩

/-- Classification of the trend string by the exact (unrounded) delta. -/
theorem trend_classify (δ : ℚ) :
    ((if δ > 15 then "ABOVE_AVERAGE"
      else if δ < -15 then "BELOW_AVERAGE" else "AVERAGE") = "ABOVE_AVERAGE"
        ↔ 15 < δ)
    ∧ ((if δ > 15 then "ABOVE_AVERAGE"
        else if δ < -15 then "BELOW_AVERAGE" else "AVERAGE") = "BELOW_AVERAGE"
        ↔ δ < -15)
    ∧ ((if δ > 15 then "ABOVE_AVERAGE"
        else if δ < -15 then "BELOW_AVERAGE" else "AVERAGE") = "AVERAGE"
        ↔ -15 ≤ δ ∧ δ ≤ 15) := by
  split_ifs with h1 h2 <;>
    refine ⟨?_, ?_, ?_⟩ <;>
      simp <;>
        first
          | linarith
          | (constructor <;> linarith)
          | (intro ha; linarith)

/-- C9: for every body and non-empty collection, `getRiskTrend` classifies
the delta between the body's score and the collection's mean score as
ABOVE_AVERAGE exactly when the delta exceeds 15, BELOW_AVERAGE exactly
when it is below -15, and AVERAGE otherwise. -/
theorem getRiskTrend_classification (body : CelestialBody)
    (allBodies : List CelestialBody) (_h : allBodies ≠ []) :
    ((getRiskTrend body allBodies).trend = "ABOVE_AVERAGE"
        ↔ 15 < ((calculateRiskScore (some body)).score : ℚ) - meanRiskScore allBodies)
    ∧ ((getRiskTrend body allBodies).trend = "BELOW_AVERAGE"
        ↔ ((calculateRiskScore (some body)).score : ℚ) - meanRiskScore allBodies < -15)
    ∧ ((getRiskTrend body allBodies).trend = "AVERAGE"
        ↔ -15 ≤ ((calculateRiskScore (some body)).score : ℚ) - meanRiskScore allBodies
          ∧ ((calculateRiskScore (some body)).score : ℚ) - meanRiskScore allBodies ≤ 15) :=
  trend_classify (((calculateRiskScore (some body)).score : ℚ) - meanRiskScore allBodies)

/-- Witness for C9: against the singleton fleet containing only itself,
Apophis is classified AVERAGE (delta zero). -/
theorem getRiskTrend_classification_witness :
    (getRiskTrend apophis [apophis]).trend = "AVERAGE" :=
  (getRiskTrend_classification apophis [apophis] (by simp)).2.2.mpr
    (by with_unfolding_all decide)

end CosmicWatch
